import Mathlib

/-!
Verification development for the "Career Future Self" Streamlit application
(`streamlit_app.py`, `ai_processor.py`, `printable_card.py`, `storage_mongo.py`,
`database_history.py`).

This file gives a shallow embedding of the application's pure core:

* mobile/contact validation (`MOBILE_RE` and `normalize_mobile`),
* the image-generation wrapper with its fallback-to-original behaviour
  (`generate_future_career_image`; the remote OpenAI round trip — base64
  encoding, the API call and base64 decoding of the response — is modelled
  as an oracle `List Nat → String → Option (List Nat)` mapping the input
  photo bytes and the career text to either the decoded output bytes or
  `none` for any remote failure),
* the MongoDB submission store with its unique `mobile` index
  (`save_to_mongo`, `update_mongo_with_drive`),
* the create-page submit handler (`page_create`, field validations in
  source order followed by the store write and the `create → result`
  transition),
* the result-page generation step and the "Try Another Career" reset
  (`page_result`),
* the A4 printable-card compositor (`generate_printable_card`), extracted
  as the ordered list of draw/paste operations it performs; text metrics
  (`draw.textlength`) are an oracle `Font → String → Nat`, and Python's
  float-division-then-`int` resize height is modelled by exact natural
  division (truncation of the exact ratio).

Bytes are modelled as `List Nat`. Python truthiness of `Optional[bytes]`
is `none ↦ false`, `some b ↦ b ≠ []`. Python's `\d` and `\s` regex classes
are modelled by their ASCII meaning (`Char.isDigit`, `Char.isWhitespace`).
-/

/-- ASCII whitespace test used to model Python's `str.strip()` and the
regex class `\s`. -/
def pyWhite (c : Char) : Bool :=
  c = ' ' || c = '\t' || c = '\n' || c = '\r' || c = '\x0b' || c = '\x0c'

/-- Model of Python `str.strip()` on a character list: drop leading and
trailing whitespace. -/
def stripChars (l : List Char) : List Char :=
  ((l.dropWhile pyWhite).reverse.dropWhile pyWhite).reverse

/-- Model of Python `str.strip()` on strings. -/
def pyStrip (s : String) : String :=
  ⟨stripChars s.data⟩

/-- `[6-9]\d{9}`: a 10-character list whose head is a digit 6–9 and whose
remaining nine characters are digits.  This is the capture group of
`MOBILE_RE` in `streamlit_app.py`. -/
def coreMatch : List Char → Bool
  | c :: rest => ('6' ≤ c && c ≤ '9') && rest.length = 9 && rest.all Char.isDigit
  | [] => false

/-- `[\-\s]`: hyphen or whitespace, the optional separator after `+91`. -/
def sepChar (c : Char) : Bool :=
  c = '-' || pyWhite c

/-- Model of `MOBILE_RE = re.compile(r'^(?:\+91[\-\s]?|0?)?([6-9]\d{9})$')`
applied with `re.match` (anchored on both sides): returns the capture
group (the 10-digit core) on success.  Following the regex engine's
backtracking, the `+91`-with-optional-separator branch is tried first,
then the optional leading `0`, then the empty prefix; a prefix is only
kept if the 10-digit core matches the remainder. -/
def mobileRegexMatch (l : List Char) : Option (List Char) :=
  match l with
  | c1 :: rest1 =>
      if c1 = '+' then
        match rest1 with
        | c2 :: c3 :: rest =>
            if c2 = '9' ∧ c3 = '1' then
              match rest with
              | c :: rest2 =>
                  if sepChar c ∧ coreMatch rest2 then some rest2
                  else if coreMatch rest then some rest else none
              | [] => none
            else if coreMatch l then some l else none
        | _ => if coreMatch l then some l else none
      else if c1 = '0' then
        if coreMatch rest1 then some rest1
        else if coreMatch l then some l else none
      else if coreMatch l then some l else none
  | [] => none

/-- Model of `normalize_mobile` in `streamlit_app.py`: empty input is
rejected, otherwise the input is stripped and matched against `MOBILE_RE`;
on success the 10-digit capture group is returned. -/
def normalize_mobile (raw : String) : Option String :=
  if raw = "" then none
  else (mobileRegexMatch (stripChars raw.data)).map (fun l => ⟨l⟩)

/-- The mobile pattern exactly as the specification words it: a 10-digit
core beginning with a digit 6–9, optionally preceded by the country code
`+91` (possibly followed by a hyphen or a whitespace separator) or by a
single leading zero. -/
def specMobilePattern (l : List Char) : Bool :=
  coreMatch l ||
  (match l with
   | a :: r => a = '0' && coreMatch r
   | [] => false) ||
  (match l with
   | a :: b :: c :: r => a = '+' && b = '9' && c = '1' && coreMatch r
   | _ => false) ||
  (match l with
   | a :: b :: c :: d :: r =>
       a = '+' && b = '9' && c = '1' && sepChar d && coreMatch r
   | _ => false)

/-- The prefixes the specification allows in front of the 10-digit core:
nothing, a single `0`, the country code `+91`, or `+91` followed by a
hyphen or whitespace separator. -/
def prefixOk (p : List Char) : Prop :=
  p = [] ∨ p = ['0'] ∨ p = ['+', '9', '1'] ∨
    ∃ c, sepChar c = true ∧ p = ['+', '9', '1', c]

/-- Image-generation wrapper, model of `generate_future_career_image` in
`streamlit_app.py`.  `hasClient` models `OPENAI_API_KEY` being set and the
client construction having succeeded; `remote` models the whole remote
round trip inside the `try` block (API call plus base64 decoding of the
response), with `none` for any raised exception.  Without a client, or on
any remote failure, the original photo bytes are returned unchanged. -/
def generate_future_career_image (hasClient : Bool)
    (remote : List Nat → String → Option (List Nat))
    (image_bytes : List Nat) (career : String) : List Nat :=
  if !hasClient then image_bytes
  else
    match remote image_bytes career with
    | some out => out
    | none => image_bytes

/-- One stored MongoDB document of the `Master` collection, as written by
`save_to_mongo` and patched by `update_mongo_with_drive`. -/
structure Doc where
  name : String
  mobile : String
  dream : String
  timestamp : Nat
  drive_url : Option String
  drive_file_id : Option String
  deriving DecidableEq, Repr

/-- The `Master` collection: documents keyed by their ObjectId (modelled
as a `Nat` drawn from a fresh-id counter). -/
structure MongoDB where
  docs : List (Nat × Doc)
  nextId : Nat
  deriving DecidableEq, Repr

/-- Result of a `save_to_mongo` call: `(ok, inserted-id-or-message)`. -/
inductive MongoResult where
  | success (id : Nat)
  | failure (msg : String)
  deriving DecidableEq, Repr

/-- `insert_one` against the unique index on `mobile`: a duplicate mobile
raises `DuplicateKeyError`, otherwise the document is appended under a
fresh id. -/
def insertOne (db : MongoDB) (d : Doc) : MongoDB × MongoResult :=
  if db.docs.any (fun p => p.2.mobile = d.mobile) then
    (db, .failure "Mobile number already exists.")
  else
    ({ docs := db.docs ++ [(db.nextId, d)], nextId := db.nextId + 1 },
     .success db.nextId)

/-- Replace the document of the first entry whose `mobile` field equals
`m`, keeping its id; `none` when no entry matches. -/
def replaceByMobile : List (Nat × Doc) → String → Doc → Option (List (Nat × Doc) × Nat)
  | [], _, _ => none
  | (i, d) :: rest, m, nd =>
      if d.mobile = m then some ((i, nd) :: rest, i)
      else (replaceByMobile rest m nd).map (fun p => ((i, d) :: p.1, p.2))

/-- `find_one_and_update({"mobile": m}, {"$set": doc}, upsert=True,
return_document=True)`: replace the matching document's fields if one
exists (keeping its id), otherwise insert the document under a fresh id;
either way return the id of the resulting document. -/
def findOneAndUpdateUpsert (db : MongoDB) (m : String) (d : Doc) : MongoDB × Nat :=
  match replaceByMobile db.docs m d with
  | some (docs2, i) => ({ db with docs := docs2 }, i)
  | none =>
      ({ docs := db.docs ++ [(db.nextId, d)], nextId := db.nextId + 1 }, db.nextId)

/-- Model of `save_to_mongo` in `streamlit_app.py`.  The collection may be
unconfigured (`none`); the admin/test number (when non-empty, mirroring
Python truthiness of `ADMIN_NUMBER`) is upserted, every other mobile is a
plain insert subject to the unique index. -/
def save_to_mongo (coll : Option MongoDB) (name mobile dream : String)
    (timestamp : Nat) (admin_number : String) : Option MongoDB × MongoResult :=
  match coll with
  | none => (none, .failure "MongoDB not configured.")
  | some db =>
      let doc : Doc :=
        { name := name, mobile := mobile, dream := dream,
          timestamp := timestamp, drive_url := none, drive_file_id := none }
      if admin_number ≠ "" && mobile = admin_number then
        let (db2, i) := findOneAndUpdateUpsert db mobile doc
        (some db2, .success i)
      else
        let (db2, r) := insertOne db doc
        (some db2, r)

/-- Model of `update_mongo_with_drive`: patch `drive_url` and
`drive_file_id` onto the document with the given id (no-op on the store
when the id is absent, as `update_one` then matches nothing). -/
def update_mongo_with_drive (db : MongoDB) (mongo_id : Nat)
    (durl dfid : String) : MongoDB :=
  { db with
    docs := db.docs.map (fun p =>
      if p.1 = mongo_id then
        (p.1, { p.2 with drive_url := some durl, drive_file_id := some dfid })
      else p) }

/-- `st.session_state.form_data`: a dict; keys are modelled as optional
fields, `none` meaning the key is absent. -/
structure FormData where
  name : Option String
  age : Option Nat
  gender : Option String
  status : Option String
  mobile : Option String
  dream : Option String
  deriving DecidableEq, Repr

/-- The empty form dict `{}`. -/
def FormData.empty : FormData :=
  { name := none, age := none, gender := none, status := none,
    mobile := none, dream := none }

/-- The Streamlit session state fields used by the wizard.  Image byte
strings are `Option (List Nat)` with `none` for Python `None`. -/
structure Session where
  page : String
  form_data : FormData
  original_image : Option (List Nat)
  generated_image : Option (List Nat)
  drive_file_id : Option String
  drive_url : Option String
  request_saved : Bool
  mongo_id : Option Nat
  deriving DecidableEq, Repr

/-- The session defaults installed at the top of `streamlit_app.py`. -/
def Session.init : Session :=
  { page := "home", form_data := FormData.empty, original_image := none,
    generated_image := none, drive_file_id := none, drive_url := none,
    request_saved := false, mongo_id := none }

/-- Python truthiness of an `Optional[bytes]` value: `None` and `b""` are
falsy, every non-empty byte string is truthy. -/
def bytesTruthy : Option (List Nat) → Bool
  | none => false
  | some b => !b.isEmpty

/-- The widget values read by `page_create` when the form is submitted. -/
structure CreateInput where
  name : String
  age : Nat
  gender : String
  status : String
  mobile_raw : String
  dream : String
  other : String
  photo : Option (List Nat)
  consent : Bool
  deriving DecidableEq, Repr

/-- Outcome of a create-form submission: a `st.error` message and early
return, or the flow proceeded to the result page with the stored id. -/
inductive SubmitResult where
  | errorMsg (m : String)
  | proceeded (id : Nat)
  deriving DecidableEq, Repr

/-- Model of the `if submitted:` block of `page_create`: the five field
validations in source order (name, mobile, dream/other, photo, consent),
each failing one showing its `st.error` and returning; then form data and
the original image are stored in the session, `save_to_mongo` is called
once, and on success the wizard transitions to `result`.  The last
component counts record-store write attempts (calls to `save_to_mongo`). -/
def page_create_submit (s : Session) (coll : Option MongoDB)
    (inp : CreateInput) (now : Nat) (admin : String) :
    Session × Option MongoDB × SubmitResult × Nat :=
  if pyStrip inp.name = "" then
    (s, coll, .errorMsg "Please enter your name.", 0)
  else
    match normalize_mobile inp.mobile_raw with
    | none => (s, coll, .errorMsg "Please enter a valid mobile number.", 0)
    | some mob =>
        if inp.dream = "Other" && pyStrip inp.other = "" then
          (s, coll, .errorMsg "Please specify your dream career.", 0)
        else
          match inp.photo with
          | none =>
              (s, coll, .errorMsg "Please capture or upload a clear face photo.", 0)
          | some photoBytes =>
              if !inp.consent then
                (s, coll, .errorMsg "Consent is required.", 0)
              else
                let fd : FormData :=
                  { name := some (pyStrip inp.name), age := some inp.age,
                    gender := some inp.gender, status := some inp.status,
                    mobile := some mob,
                    dream := some (if inp.dream = "Other" then pyStrip inp.other
                                   else inp.dream) }
                let s1 : Session :=
                  { s with form_data := fd, original_image := some photoBytes }
                match save_to_mongo coll (pyStrip inp.name) mob
                    (if inp.dream = "Other" then pyStrip inp.other else inp.dream)
                    now admin with
                | (coll2, .success i) =>
                    ({ s1 with request_saved := true, mongo_id := some i,
                               page := "result" },
                     coll2, .proceeded i, 1)
                | (coll2, .failure m) =>
                    (s1, coll2, .errorMsg m, 1)

/-- Model of the generation block of `page_result`.  If the session
already holds a truthy generated image the block is skipped entirely.
Otherwise `generate_future_career_image` is invoked once (the counter in
the result counts these invocations) with the session's original image
and stored career; with no original image the call raises inside
`base64.b64encode` when a client is present (caught by the surrounding
`try`, leaving the session unchanged), and returns `None` otherwise.
The Drive-backup step that follows is modelled by `driveConfigured`
(service built and folder id present) and an oracle `driveUpload` giving
the uploaded file's id and public URL, or `none` on failure. -/
def page_result_generate (s : Session) (hasClient : Bool)
    (remote : List Nat → String → Option (List Nat))
    (driveConfigured : Bool)
    (driveUpload : List Nat → Option (String × String)) : Session × Nat :=
  if bytesTruthy s.generated_image then (s, 0)
  else
    match s.original_image with
    | none =>
        if hasClient then (s, 1)
        else ({ s with generated_image := none }, 1)
    | some orig =>
        let gb := generate_future_career_image hasClient remote orig
          (s.form_data.dream.getD "")
        let s1 := { s with generated_image := some gb }
        if driveConfigured then
          match driveUpload gb with
          | some (fid, url) =>
              ({ s1 with drive_file_id := some fid, drive_url := some url }, 1)
          | none => (s1, 1)
        else (s1, 1)

/-- Model of the "Try Another Career" button of `page_result`: the form
dict is replaced by one holding only the previous name and mobile (via
`.get(..., "")`), every image, Drive and Mongo field is cleared, and the
wizard returns to `create`. -/
def try_another_career (s : Session) : Session :=
  { page := "create",
    form_data :=
      { name := some (s.form_data.name.getD ""),
        mobile := some (s.form_data.mobile.getD ""),
        age := none, gender := none, status := none, dream := none },
    original_image := none, generated_image := none,
    drive_file_id := none, drive_url := none,
    request_saved := false, mongo_id := none }

/-- The five field validations of `page_create` in source order, each with
its `st.error` message. -/
def fieldChecks (inp : CreateInput) : List (Bool × String) :=
  [ (pyStrip inp.name ≠ "", "Please enter your name."),
    ((normalize_mobile inp.mobile_raw).isSome, "Please enter a valid mobile number."),
    (!(inp.dream = "Other" && pyStrip inp.other = ""), "Please specify your dream career."),
    (inp.photo.isSome, "Please capture or upload a clear face photo."),
    (inp.consent, "Consent is required.") ]

/-- The message of the first failing check, `none` when all pass. -/
def firstFailure : List (Bool × String) → Option String
  | [] => none
  | (b, m) :: rest => if b then firstFailure rest else some m

/-- The four fonts loaded by `generate_printable_card` (`arial.ttf` at
sizes 90, 60, 70, 50, or the default font four times). -/
inductive Font where
  | title
  | sub
  | body
  | footer
  deriving DecidableEq, Repr

/-- Width and height of a PIL image, in pixels. -/
structure ImgDims where
  w : Nat
  h : Nat
  deriving DecidableEq, Repr

/-- One drawing operation performed on the A4 canvas: `text x y s f` is
`draw.text((x, y), s, font=f)` and `paste x y w h` is `card.paste` of a
`w × h` resized bitmap at `(x, y)`. -/
inductive DrawOp where
  | text (x : Int) (y : Int) (s : String) (f : Font)
  | paste (x : Int) (y : Int) (w : Nat) (h : Nat)
  deriving DecidableEq, Repr

/-- `A4_WIDTH_PX` in `printable_card.py`. -/
def A4_WIDTH_PX : Int := 2480

/-- `A4_HEIGHT_PX` in `printable_card.py`. -/
def A4_HEIGHT_PX : Int := 3508

/-- The resize of `printable_card.py`:
`img.resize((1600, int(img.height * (1600 / img.width))))`, the exact
ratio truncated to an integer (Python computes it in floating point; the
exact rational value is taken here). -/
def resizedHeight (d : ImgDims) : Nat :=
  d.h * 1600 / d.w

/-- Model of `generate_printable_card` in `printable_card.py`, extracted
as the ordered list of draw and paste operations it performs on the white
A4 canvas.  `tl` is the text-metric oracle `draw.textlength(s, font=f)`
(a width in pixels, font dependent); Python's `//` floor division on
possibly negative values is `Int.fdiv`. -/
def generate_printable_card (tl : Font → String → Nat)
    (name school goal : String) (captured_img ai_img : ImgDims) : List DrawOp :=
  let title_text := "Future Goal Profile"
  let info_y : Int := 300
  let display_width : Nat := 1600
  let capH := resizedHeight captured_img
  let cap_x := (A4_WIDTH_PX - (display_width : Int)).fdiv 2
  let cap_y := info_y + 450
  let aiH := resizedHeight ai_img
  let ai_x := (A4_WIDTH_PX - (display_width : Int)).fdiv 2
  let ai_y := cap_y + capH + 200
  let footer_text := "Powered by Robokalam"
  [ DrawOp.text ((A4_WIDTH_PX - (tl Font.title title_text : Int)).fdiv 2) 100
      title_text Font.title,
    DrawOp.text 200 info_y ("Name: " ++ name) Font.body,
    DrawOp.text 200 (info_y + 120) ("School: " ++ school) Font.body,
    DrawOp.text 200 (info_y + 240) ("Future Goal: " ++ goal) Font.body,
    DrawOp.paste cap_x cap_y display_width capH,
    DrawOp.text ((A4_WIDTH_PX - (tl Font.sub "Captured Photo" : Int)).fdiv 2)
      (cap_y + capH + 20) "Captured Photo" Font.sub,
    DrawOp.paste ai_x ai_y display_width aiH,
    DrawOp.text ((A4_WIDTH_PX - (tl Font.sub ("Future " ++ goal) : Int)).fdiv 2)
      (ai_y + aiH + 20) ("Future " ++ goal) Font.sub,
    DrawOp.text ((A4_WIDTH_PX - (tl Font.footer footer_text : Int)).fdiv 2)
      (A4_HEIGHT_PX - 200) footer_text Font.footer ]

/-- A mobile store is valid when every persisted document's `mobile`
field is a bare 10-digit core beginning with a digit 6–9. -/
def validStore (db : MongoDB) : Prop :=
  ∀ p ∈ db.docs, coreMatch p.2.mobile.data = true

/-- The horizontal position `(A4_WIDTH_PX - w) // 2` used by
`printable_card.py` to centre an element of rendered width `w`. -/
def centeredX (w : Nat) : Int :=
  (A4_WIDTH_PX - (w : Int)).fdiv 2

/-- An element of width `w` drawn at abscissa `x` is horizontally centred
on the A4 canvas: its left margin is at most its right margin, and the
two differ by at most one pixel. -/
def centeredOn (x : Int) (w : Nat) : Prop :=
  x ≤ A4_WIDTH_PX - (x + (w : Int)) ∧ A4_WIDTH_PX - (x + (w : Int)) ≤ x + 1

/-- The layout contract of the card compositor, as the specification
states it: the title centred at the top via its measured width; the three
student-info lines left-aligned at `x = 200`, at vertical offsets
accumulating a 120-pixel line height from the 300-pixel base; each photo
resized to the 1600-pixel target width with its height the truncated
aspect-preserving value, pasted horizontally centred; and each caption
drawn 20 pixels directly below its pasted image, horizontally centred. -/
def CardLayoutSpec (tl : Font → String → Nat) (name school goal : String)
    (cap ai : ImgDims) (ops : List DrawOp) : Prop :=
  let d := DrawOp.text 0 0 "" Font.body
  (ops.getD 0 d = DrawOp.text (centeredX (tl Font.title "Future Goal Profile")) 100
      "Future Goal Profile" Font.title ∧
   centeredOn (centeredX (tl Font.title "Future Goal Profile"))
      (tl Font.title "Future Goal Profile")) ∧
  (ops.getD 1 d = DrawOp.text 200 300 ("Name: " ++ name) Font.body ∧
   ops.getD 2 d = DrawOp.text 200 (300 + 120) ("School: " ++ school) Font.body ∧
   ops.getD 3 d = DrawOp.text 200 (300 + 120 + 120) ("Future Goal: " ++ goal) Font.body) ∧
  (ops.getD 4 d = DrawOp.paste 440 750 1600 (resizedHeight cap) ∧
   resizedHeight cap * cap.w ≤ cap.h * 1600 ∧
   cap.h * 1600 < (resizedHeight cap + 1) * cap.w ∧
   centeredOn 440 1600 ∧
   ops.getD 5 d = DrawOp.text (centeredX (tl Font.sub "Captured Photo"))
      (750 + (resizedHeight cap : Int) + 20) "Captured Photo" Font.sub ∧
   centeredOn (centeredX (tl Font.sub "Captured Photo")) (tl Font.sub "Captured Photo")) ∧
  (ops.getD 6 d = DrawOp.paste 440 (750 + (resizedHeight cap : Int) + 200) 1600
      (resizedHeight ai) ∧
   resizedHeight ai * ai.w ≤ ai.h * 1600 ∧
   ai.h * 1600 < (resizedHeight ai + 1) * ai.w ∧
   centeredOn 440 1600 ∧
   ops.getD 7 d = DrawOp.text (centeredX (tl Font.sub ("Future " ++ goal)))
      ((750 + (resizedHeight cap : Int) + 200) + (resizedHeight ai : Int) + 20)
      ("Future " ++ goal) Font.sub ∧
   centeredOn (centeredX (tl Font.sub ("Future " ++ goal))) (tl Font.sub ("Future " ++ goal)))

/-- A remote-generation oracle that fails on every input (every remote
call raises). -/
def remoteAlwaysFails : List Nat → String → Option (List Nat) :=
  fun _ _ => none

/-- A remote-generation oracle that always succeeds with a fixed output. -/
def remoteConst : List Nat → String → Option (List Nat) :=
  fun _ _ => some [9, 9]

/-- A Drive-upload oracle that always fails. -/
def driveNoUpload : List Nat → Option (String × String) :=
  fun _ => none

/-- A text-metric oracle: ten pixels per character. -/
def tlFixture : Font → String → Nat :=
  fun _ s => 10 * s.length

/-- A concrete stored submission used by concrete-instance theorems. -/
def doc0 : Doc :=
  { name := "Asha", mobile := "9876543210", dream := "Doctor",
    timestamp := 1, drive_url := none, drive_file_id := none }

/-- A one-document store holding `doc0`. -/
def db0 : MongoDB :=
  { docs := [(0, doc0)], nextId := 1 }

/-- A create-form input passing every field validation, whose mobile
coincides with the one already stored in `db0`. -/
def inp0 : CreateInput :=
  { name := "Ravi", age := 18, gender := "Male", status := "Student",
    mobile_raw := "9876543210", dream := "Teacher", other := "",
    photo := some [1, 2, 3], consent := true }

/-- The same input with an invalid mobile number. -/
def inpBadMobile : CreateInput :=
  { inp0 with mobile_raw := "12345" }

/-- A session sitting on the create page. -/
def sess0 : Session :=
  { Session.init with page := "create" }

/-- A session on the result page with stored form data and original image
but no generated image yet (a fresh entry into `result`). -/
def sessFresh : Session :=
  { Session.init with
    page := "result",
    form_data := { FormData.empty with
                   name := some "Ravi",
                   mobile := some "9876543210",
                   dream := some "Teacher" },
    original_image := some [1, 2, 3] }

/-- A session on the result page that already holds a generated image. -/
def sessHeld : Session :=
  { sessFresh with generated_image := some [5, 5] }

/-- The valid input `inp0` with the consent box left unchecked. -/
def inpNoConsent : CreateInput :=
  { inp0 with consent := false }

/-- A valid input whose mobile is absent from `db0`. -/
def inpFreshMobile : CreateInput :=
  { inp0 with mobile_raw := "8123456789" }

/-- Whether a submission outcome reached the result page. -/
def SubmitResult.ok : SubmitResult → Bool
  | .proceeded _ => true
  | .errorMsg _ => false

/-- `validStore` lifted to a possibly unconfigured collection. -/
def validStoreOpt : Option MongoDB → Prop
  | none => True
  | some db => validStore db

/-- The valid input `inp0` with a `+91-`-prefixed raw mobile. -/
def inpPrefixedMobile : CreateInput :=
  { inp0 with mobile_raw := "+91-9876543210" }

/-! ## Theorems -/

/-- C1: for every input photo byte string and career text, if the
image-generation call fails (the remote round trip returns nothing, i.e.
any network, quota or content-policy exception is raised), the generation
operation returns a byte string equal, byte for byte, to the original
input photo bytes, rather than propagating the error. -/
theorem generation_failure_returns_original (hasClient : Bool)
    (remote : List Nat → String → Option (List Nat))
    (image_bytes : List Nat) (career : String)
    (hfail : remote image_bytes career = none) :
    generate_future_career_image hasClient remote image_bytes career
      = image_bytes := by
  cases hasClient <;> simp [generate_future_career_image, hfail]

/-- Witness for the generation-fallback theorem at a concrete photo and
an always-failing remote oracle. -/
theorem generation_failure_returns_original_witness :
    remoteAlwaysFails [1, 2, 3] "Doctor" = none ∧
    generate_future_career_image true remoteAlwaysFails [1, 2, 3] "Doctor"
      = [1, 2, 3] :=
  ⟨rfl, generation_failure_returns_original true remoteAlwaysFails [1, 2, 3]
    "Doctor" rfl⟩

/-- C2: a submission whose mobile is not the admin/test number and
already occurs in the store fails with the duplicate-key message, and the
store — in particular the previously stored record for that mobile — is
unchanged by the failed call. -/
theorem duplicate_mobile_insert_fails (db : MongoDB)
    (name mobile dream : String) (ts : Nat) (admin : String)
    (hne : mobile ≠ admin)
    (hdup : ∃ p ∈ db.docs, p.2.mobile = mobile) :
    save_to_mongo (some db) name mobile dream ts admin
      = (some db, MongoResult.failure "Mobile number already exists.") := by
  obtain ⟨p, hp, hm⟩ := hdup
  have hany : db.docs.any (fun q => q.2.mobile = mobile) = true := by
    rw [List.any_eq_true]
    exact ⟨p, hp, by simp [hm]⟩
  simp [save_to_mongo, insertOne, hne, hany]

/-- Witness for the duplicate-insert theorem: `db0` already stores
`doc0` with mobile `9876543210`, which is not the admin number. -/
theorem duplicate_mobile_insert_fails_witness :
    ("9876543210" : String) ≠ "7981856940" ∧
    (∃ p ∈ db0.docs, p.2.mobile = "9876543210") ∧
    save_to_mongo (some db0) "Ravi" "9876543210" "Teacher" 2 "7981856940"
      = (some db0, MongoResult.failure "Mobile number already exists.") :=
  ⟨by decide, ⟨(0, doc0), by simp [db0], by simp [doc0]⟩,
   duplicate_mobile_insert_fails db0 "Ravi" "9876543210" "Teacher" 2
     "7981856940" (by decide) ⟨(0, doc0), by simp [db0], by simp [doc0]⟩⟩

/-- `replaceByMobile` finds nothing when no stored document carries the
searched mobile. -/
theorem replaceByMobile_not_found (l : List (Nat × Doc)) (m : String) (nd : Doc)
    (h : ∀ p ∈ l, p.2.mobile ≠ m) : replaceByMobile l m nd = none := by
  induction l with
  | nil => rfl
  | cons hd tl ih =>
      obtain ⟨i, d⟩ := hd
      have hdm : d.mobile ≠ m := h (i, d) (by simp)
      simp [replaceByMobile, hdm]
      exact ih fun p hp => h p (by simp [hp])

/-- `replaceByMobile` on a list whose only match is its appended last
entry replaces exactly that entry, keeping its id. -/
theorem replaceByMobile_append_found (l : List (Nat × Doc)) (i : Nat)
    (d nd : Doc) (m : String)
    (h : ∀ p ∈ l, p.2.mobile ≠ m) (hdm : d.mobile = m) :
    replaceByMobile (l ++ [(i, d)]) m nd = some (l ++ [(i, nd)], i) := by
  induction l with
  | nil => simp [replaceByMobile, hdm]
  | cons hd tl ih =>
      obtain ⟨j, e⟩ := hd
      have hem : e.mobile ≠ m := h (j, e) (by simp)
      simp [replaceByMobile, hem]
      exact ih fun p hp => h p (by simp [hp])

/-- C3: two submissions with the admin/test mobile, against a store not
yet holding that mobile: the first inserts under the fresh id, the second
succeeds, returns the same identifier, and overwrites the stored record's
name, dream and timestamp, leaving exactly one record with that mobile. -/
theorem admin_upsert_overwrites (db : MongoDB) (admin : String)
    (hadmin : admin ≠ "")
    (hfresh : ∀ p ∈ db.docs, p.2.mobile ≠ admin)
    (n1 d1 n2 d2 : String) (t1 t2 : Nat) :
    ∃ db1 db2 : MongoDB,
      save_to_mongo (some db) n1 admin d1 t1 admin
        = (some db1, MongoResult.success db.nextId) ∧
      save_to_mongo (some db1) n2 admin d2 t2 admin
        = (some db2, MongoResult.success db.nextId) ∧
      db2.docs.filter (fun p => p.2.mobile = admin)
        = [(db.nextId,
            { name := n2, mobile := admin, dream := d2, timestamp := t2,
              drive_url := none, drive_file_id := none })] := by
  have hsave : ∀ (dbx : MongoDB) (n d : String) (t : Nat),
      save_to_mongo (some dbx) n admin d t admin
        = (some (findOneAndUpdateUpsert dbx admin
            { name := n, mobile := admin, dream := d, timestamp := t,
              drive_url := none, drive_file_id := none }).1,
           MongoResult.success (findOneAndUpdateUpsert dbx admin
            { name := n, mobile := admin, dream := d, timestamp := t,
              drive_url := none, drive_file_id := none }).2) := by
    intro dbx n d t
    simp [save_to_mongo, hadmin]
  have h1 : findOneAndUpdateUpsert db admin
      { name := n1, mobile := admin, dream := d1, timestamp := t1,
        drive_url := none, drive_file_id := none }
      = (⟨db.docs ++ [(db.nextId,
          { name := n1, mobile := admin, dream := d1, timestamp := t1,
            drive_url := none, drive_file_id := none })], db.nextId + 1⟩,
         db.nextId) := by
    unfold findOneAndUpdateUpsert
    rw [replaceByMobile_not_found db.docs admin _ hfresh]
  have h2 : findOneAndUpdateUpsert
      (⟨db.docs ++ [(db.nextId,
          { name := n1, mobile := admin, dream := d1, timestamp := t1,
            drive_url := none, drive_file_id := none })],
        db.nextId + 1⟩ : MongoDB) admin
      { name := n2, mobile := admin, dream := d2, timestamp := t2,
        drive_url := none, drive_file_id := none }
      = (⟨db.docs ++ [(db.nextId,
          { name := n2, mobile := admin, dream := d2, timestamp := t2,
            drive_url := none, drive_file_id := none })], db.nextId + 1⟩,
         db.nextId) := by
    unfold findOneAndUpdateUpsert
    rw [replaceByMobile_append_found db.docs db.nextId
      { name := n1, mobile := admin, dream := d1, timestamp := t1,
        drive_url := none, drive_file_id := none }
      { name := n2, mobile := admin, dream := d2, timestamp := t2,
        drive_url := none, drive_file_id := none } admin hfresh rfl]
  have hnil : db.docs.filter (fun p => p.2.mobile = admin) = [] :=
    List.filter_eq_nil_iff.mpr (fun p hp => by simp [hfresh p hp])
  refine ⟨⟨db.docs ++ [(db.nextId,
      { name := n1, mobile := admin, dream := d1, timestamp := t1,
        drive_url := none, drive_file_id := none })], db.nextId + 1⟩,
    ⟨db.docs ++ [(db.nextId,
      { name := n2, mobile := admin, dream := d2, timestamp := t2,
        drive_url := none, drive_file_id := none })], db.nextId + 1⟩,
    ?_, ?_, ?_⟩
  · rw [hsave, h1]
  · rw [hsave, h2]
  · simp [List.filter_append, hnil]

/-- Witness for the admin-upsert theorem: the admin number `7981856940`
is absent from `db0`, and two successive admin submissions leave one
record for it. -/
theorem admin_upsert_overwrites_witness :
    ("7981856940" : String) ≠ "" ∧
    (∀ p ∈ db0.docs, p.2.mobile ≠ "7981856940") ∧
    ∃ db1 db2 : MongoDB,
      save_to_mongo (some db0) "A" "7981856940" "Doctor" 10 "7981856940"
        = (some db1, MongoResult.success db0.nextId) ∧
      save_to_mongo (some db1) "B" "7981856940" "Teacher" 20 "7981856940"
        = (some db2, MongoResult.success db0.nextId) ∧
      db2.docs.filter (fun p => p.2.mobile = "7981856940")
        = [(db0.nextId,
            { name := "B", mobile := "7981856940", dream := "Teacher",
              timestamp := 20, drive_url := none, drive_file_id := none })] :=
  ⟨by decide, by decide,
   admin_upsert_overwrites db0 "7981856940" (by decide) (by decide)
     "A" "Doctor" "B" "Teacher" 10 20⟩

/-- C8: the "Try Another Career" reset returns the wizard to the create
page, keeps the session's name and mobile, and clears every other session
field: the remaining form entries, both images, the Drive backup state,
the saved-record flag and the record id. -/
theorem try_another_career_resets (s : Session) (n m : String)
    (hn : s.form_data.name = some n) (hm : s.form_data.mobile = some m) :
    (try_another_career s).page = "create" ∧
    (try_another_career s).form_data.name = some n ∧
    (try_another_career s).form_data.mobile = some m ∧
    (try_another_career s).form_data.age = none ∧
    (try_another_career s).form_data.gender = none ∧
    (try_another_career s).form_data.status = none ∧
    (try_another_career s).form_data.dream = none ∧
    (try_another_career s).original_image = none ∧
    (try_another_career s).generated_image = none ∧
    (try_another_career s).drive_file_id = none ∧
    (try_another_career s).drive_url = none ∧
    (try_another_career s).request_saved = false ∧
    (try_another_career s).mongo_id = none := by
  simp [try_another_career, hn, hm]

/-- Witness for the reset theorem at the concrete session `sessFresh`. -/
theorem try_another_career_resets_witness :
    sessFresh.form_data.name = some "Ravi" ∧
    sessFresh.form_data.mobile = some "9876543210" ∧
    (try_another_career sessFresh).page = "create" ∧
    (try_another_career sessFresh).form_data.name = some "Ravi" ∧
    (try_another_career sessFresh).form_data.mobile = some "9876543210" ∧
    (try_another_career sessFresh).form_data.age = none ∧
    (try_another_career sessFresh).form_data.gender = none ∧
    (try_another_career sessFresh).form_data.status = none ∧
    (try_another_career sessFresh).form_data.dream = none ∧
    (try_another_career sessFresh).original_image = none ∧
    (try_another_career sessFresh).generated_image = none ∧
    (try_another_career sessFresh).drive_file_id = none ∧
    (try_another_career sessFresh).drive_url = none ∧
    (try_another_career sessFresh).request_saved = false ∧
    (try_another_career sessFresh).mongo_id = none := by
  refine ⟨rfl, rfl, ?_⟩
  exact try_another_career_resets sessFresh "Ravi" "9876543210" rfl rfl

/-- C7: entering the result page is idempotent with respect to image
generation.  A session already holding a (truthy) generated image skips
generation entirely and is left unchanged; a fresh entry (no generated
image yet, original image present, generation output non-empty) triggers
exactly one generation call, and re-entering with the resulting session
triggers none. -/
theorem result_entry_generation_idempotent (s sHeld2 : Session)
    (hasClient : Bool) (remote : List Nat → String → Option (List Nat))
    (driveConfigured : Bool)
    (driveUpload : List Nat → Option (String × String)) (orig : List Nat)
    (hheld : bytesTruthy sHeld2.generated_image = true)
    (horig : s.original_image = some orig)
    (hfresh : bytesTruthy s.generated_image = false)
    (hne : generate_future_career_image hasClient remote orig
        (s.form_data.dream.getD "") ≠ []) :
    page_result_generate sHeld2 hasClient remote driveConfigured driveUpload
      = (sHeld2, 0) ∧
    (page_result_generate s hasClient remote driveConfigured driveUpload).2 = 1 ∧
    page_result_generate
        (page_result_generate s hasClient remote driveConfigured driveUpload).1
        hasClient remote driveConfigured driveUpload
      = ((page_result_generate s hasClient remote driveConfigured
          driveUpload).1, 0) := by
  have hgb : bytesTruthy (some (generate_future_career_image hasClient remote
      orig (s.form_data.dream.getD ""))) = true := by
    simp [bytesTruthy, List.isEmpty_iff, hne]
  refine ⟨by simp [page_result_generate, hheld], ?_, ?_⟩
  · simp only [page_result_generate, hfresh, horig]
    simp only [Bool.false_eq_true, if_false]
    by_cases hd : driveConfigured <;> simp [hd]
    cases driveUpload (generate_future_career_image hasClient remote orig
        (s.form_data.dream.getD "")) <;> simp
  · simp only [page_result_generate, hfresh, horig]
    simp only [Bool.false_eq_true, if_false]
    by_cases hd : driveConfigured <;> simp only [hd, if_true, if_false]
    · cases driveUpload (generate_future_career_image hasClient remote orig
          (s.form_data.dream.getD "")) <;> simp [page_result_generate, hgb]
    · simp [page_result_generate, hgb]

/-- Witness for the idempotence theorem: `sessHeld` already holds an
image, `sessFresh` is a fresh entry, the remote oracle succeeds with a
non-empty output. -/
theorem result_entry_generation_idempotent_witness :
    bytesTruthy sessHeld.generated_image = true ∧
    sessFresh.original_image = some [1, 2, 3] ∧
    bytesTruthy sessFresh.generated_image = false ∧
    generate_future_career_image true remoteConst [1, 2, 3]
      (sessFresh.form_data.dream.getD "") ≠ [] ∧
    (page_result_generate sessHeld true remoteConst false driveNoUpload
      = (sessHeld, 0) ∧
    (page_result_generate sessFresh true remoteConst false driveNoUpload).2 = 1 ∧
    page_result_generate
        (page_result_generate sessFresh true remoteConst false driveNoUpload).1
        true remoteConst false driveNoUpload
      = ((page_result_generate sessFresh true remoteConst false
          driveNoUpload).1, 0)) :=
  ⟨rfl, rfl, rfl, by decide,
   result_entry_generation_idempotent sessFresh sessHeld true remoteConst
     false driveNoUpload [1, 2, 3] rfl rfl rfl (by decide)⟩

/-- Unfolding equation of `coreMatch` on a non-empty list. -/
theorem coreMatch_cons (c : Char) (r : List Char) :
    coreMatch (c :: r)
      = (('6' ≤ c && c ≤ '9') && r.length = 9 && r.all Char.isDigit) := rfl

/-- `isSome` of a guarded `some`. -/
theorem isSome_guard {α : Type} (b : Bool) (x : α) :
    (if b = true then some x else none).isSome = b := by
  cases b <;> simp

/-- The regex matcher of `MOBILE_RE` succeeds exactly on the lists that
satisfy the specification's pattern. -/
theorem mobileRegexMatch_isSome_eq_spec (l : List Char) :
    (mobileRegexMatch l).isSome = specMobilePattern l := by
  rcases l with _ | ⟨c1, rest1⟩
  · rfl
  by_cases h1 : c1 = '+'
  · subst h1
    rcases rest1 with _ | ⟨c2, _ | ⟨c3, rest⟩⟩
    · simp +decide [mobileRegexMatch, specMobilePattern, coreMatch]
    · simp +decide [mobileRegexMatch, specMobilePattern, coreMatch_cons]
    · by_cases h91 : c2 = '9' ∧ c3 = '1'
      · obtain ⟨h9, h11⟩ := h91
        subst h9; subst h11
        rcases rest with _ | ⟨c, rest2⟩
        · simp +decide [mobileRegexMatch, specMobilePattern, coreMatch]
        · have hplus : coreMatch ('+' :: '9' :: '1' :: c :: rest2) = false := by
            simp +decide [coreMatch_cons]
          by_cases hsep : sepChar c = true <;>
          by_cases hc2 : coreMatch rest2 = true <;>
          by_cases hc1 : coreMatch (c :: rest2) = true <;>
            simp +decide [mobileRegexMatch, specMobilePattern, hsep, hc2, hc1,
              hplus, Bool.not_eq_true] at *
      · have hplus : coreMatch ('+' :: c2 :: c3 :: rest) = false := by
          simp +decide [coreMatch_cons]
        rcases not_and_or.mp h91 with h9 | h11
        · rcases rest with _ | ⟨c, _ | ⟨d, r⟩⟩ <;>
            simp +decide [mobileRegexMatch, specMobilePattern, h91, h9, hplus]
        · rcases rest with _ | ⟨c, _ | ⟨d, r⟩⟩ <;>
            simp +decide [mobileRegexMatch, specMobilePattern, h91, h11, hplus]
  · by_cases h0 : c1 = '0'
    · subst h0
      have hz : ∀ r : List Char, coreMatch ('0' :: r) = false := fun r => by
        simp +decide [coreMatch_cons]
      rcases rest1 with _ | ⟨b, _ | ⟨c, _ | ⟨d, r⟩⟩⟩ <;>
        simp +decide [mobileRegexMatch, specMobilePattern, hz, isSome_guard]
    · rcases rest1 with _ | ⟨b, _ | ⟨c, _ | ⟨d, r⟩⟩⟩ <;>
        simp +decide [mobileRegexMatch, specMobilePattern, h0, h1, isSome_guard]

/-- C4: mobile validation accepts a raw contact string exactly when its
stripped form matches the specification's pattern — a 10-digit core
beginning 6–9, optionally preceded by `+91` (possibly with a hyphen or
whitespace separator) or a single leading zero; and when validation
rejects the string, form submission is blocked with a user-visible error
message while the session and the record store are untouched and no
record-store write occurs. -/
theorem mobile_validation_iff_pattern (raw : String) (s : Session)
    (coll : Option MongoDB) (inp : CreateInput) (now : Nat) (admin : String)
    (hraw : inp.mobile_raw = raw) :
    (normalize_mobile raw).isSome = specMobilePattern (stripChars raw.data) ∧
    (normalize_mobile raw = none →
      page_create_submit s coll inp now admin
        = (s, coll,
           SubmitResult.errorMsg
             (if pyStrip inp.name = "" then "Please enter your name."
              else "Please enter a valid mobile number."), 0)) := by
  constructor
  · by_cases hempty : raw = ""
    · subst hempty; rfl
    · simp only [normalize_mobile, hempty, if_false, reduceIte,
        Option.isSome_map']
      exact mobileRegexMatch_isSome_eq_spec _
  · intro hnone
    by_cases hname : pyStrip inp.name = ""
    · simp [page_create_submit, hname]
    · simp [page_create_submit, hname, hraw, hnone]

/-- Witness for the validation theorem at the rejected raw input
`"12345"` on the concrete create form `inpBadMobile`. -/
theorem mobile_validation_iff_pattern_witness :
    inpBadMobile.mobile_raw = "12345" ∧
    ((normalize_mobile "12345").isSome
        = specMobilePattern (stripChars "12345".data) ∧
     (normalize_mobile "12345" = none →
        page_create_submit sess0 (some db0) inpBadMobile 0 "7981856940"
          = (sess0, some db0,
             SubmitResult.errorMsg
               (if pyStrip inpBadMobile.name = "" then "Please enter your name."
                else "Please enter a valid mobile number."), 0))) :=
  ⟨rfl, mobile_validation_iff_pattern "12345" sess0 (some db0) inpBadMobile 0
    "7981856940" rfl⟩

/-- C5: on submission the required-field validations run in the listed
source order — non-empty name, valid mobile, specified custom goal,
present photo, consent — and evaluation stops at the first failing check:
its error message is shown, the session does not transition, and no
record-store write is attempted. -/
theorem validations_stop_at_first_failure (s : Session)
    (coll : Option MongoDB) (inp : CreateInput) (now : Nat) (admin : String)
    (m : String) (hfail : firstFailure (fieldChecks inp) = some m) :
    page_create_submit s coll inp now admin
      = (s, coll, SubmitResult.errorMsg m, 0) := by
  by_cases h1 : pyStrip inp.name = ""
  · simp [firstFailure, fieldChecks, h1] at hfail
    subst hfail
    simp [page_create_submit, h1]
  · cases hmob : normalize_mobile inp.mobile_raw with
    | none =>
        simp [firstFailure, fieldChecks, h1, hmob] at hfail
        subst hfail
        simp [page_create_submit, h1, hmob]
    | some mob =>
        by_cases h3 : inp.dream = "Other" ∧ pyStrip inp.other = ""
        · simp [firstFailure, fieldChecks, h1, hmob, h3] at hfail
          subst hfail
          simp [page_create_submit, h1, hmob, h3]
        · have h3f : ((inp.dream = "Other" && pyStrip inp.other = "") : Bool)
              = false := by
            rcases not_and_or.mp h3 with h | h <;> simp [h]
          cases hphoto : inp.photo with
          | none =>
              simp [firstFailure, fieldChecks, h1, hmob, h3f, hphoto] at hfail
              subst hfail
              simp [page_create_submit, h1, hmob, h3f, hphoto]
          | some pb =>
              by_cases h5 : inp.consent = true
              · simp [firstFailure, fieldChecks, h1, hmob, h3f, hphoto, h5]
                  at hfail
              · simp [firstFailure, fieldChecks, h1, hmob, h3f, hphoto, h5]
                  at hfail
                subst hfail
                simp [page_create_submit, h1, hmob, h3f, hphoto, h5]

/-- Witness for the first-failure theorem: `inpNoConsent` passes the
first four checks and fails the consent check. -/
theorem validations_stop_at_first_failure_witness :
    firstFailure (fieldChecks inpNoConsent) = some "Consent is required." ∧
    page_create_submit sess0 (some db0) inpNoConsent 0 "7981856940"
      = (sess0, some db0, SubmitResult.errorMsg "Consent is required.", 0) :=
  ⟨by decide,
   validations_stop_at_first_failure sess0 (some db0) inpNoConsent 0
     "7981856940" "Consent is required." (by decide)⟩

/-- C6 counterexample: the concrete tuple `inp0` passes every field
validation, yet submitting it against the configured store `db0` — which
already holds a record with the same mobile — does not transition the
wizard to the result state: the insert fails with the duplicate message
(while still making one write attempt). -/
theorem valid_tuple_no_transition_on_duplicate :
    firstFailure (fieldChecks inp0) = none ∧
    (page_create_submit sess0 (some db0) inp0 5 "7981856940").1.page
      ≠ "result" ∧
    (page_create_submit sess0 (some db0) inp0 5 "7981856940").2.2.1
      = SubmitResult.errorMsg "Mobile number already exists." ∧
    (page_create_submit sess0 (some db0) inp0 5 "7981856940").2.2.2 = 1 := by
  decide

/-- C6 (amended): a tuple passing all field validations makes exactly one
record-store write; when the configured store accepts that write — the
mobile is the (non-empty) admin number, or no stored record carries the
mobile — the wizard transitions to the result state. -/
theorem valid_tuple_transition_and_single_write (s : Session) (db : MongoDB)
    (inp : CreateInput) (now : Nat) (admin : String) (mob : String)
    (hpass : firstFailure (fieldChecks inp) = none)
    (hmob : normalize_mobile inp.mobile_raw = some mob)
    (hok : (admin ≠ "" ∧ mob = admin) ∨ (∀ p ∈ db.docs, p.2.mobile ≠ mob)) :
    (page_create_submit s (some db) inp now admin).1.page = "result" ∧
    (page_create_submit s (some db) inp now admin).2.2.2 = 1 ∧
    SubmitResult.ok (page_create_submit s (some db) inp now admin).2.2.1
      = true := by
  by_cases h1 : pyStrip inp.name = ""
  · simp [firstFailure, fieldChecks, h1] at hpass
  by_cases h3 : inp.dream = "Other" ∧ pyStrip inp.other = ""
  · simp [firstFailure, fieldChecks, h1, hmob, h3] at hpass
  have h3f : ((inp.dream = "Other" && pyStrip inp.other = "") : Bool)
      = false := by
    rcases not_and_or.mp h3 with h | h <;> simp [h]
  cases hphoto : inp.photo with
  | none => simp [firstFailure, fieldChecks, h1, hmob, h3f, hphoto] at hpass
  | some pb =>
    by_cases h5 : inp.consent = true
    · by_cases hcond : admin ≠ "" ∧ mob = admin
      · simp [page_create_submit, h1, hmob, h3f, hphoto, h5, save_to_mongo,
          hcond.1, hcond.2, SubmitResult.ok]
      · have hfree : ∀ p ∈ db.docs, p.2.mobile ≠ mob := by
          rcases hok with h | h
          · exact absurd h hcond
          · exact h
        have hany : db.docs.any (fun p => p.2.mobile = mob) = false := by
          rw [List.any_eq_false]
          intro p hp
          simp [hfree p hp]
        simp [page_create_submit, h1, hmob, h3f, hphoto, h5, save_to_mongo,
          insertOne, hcond, hany, SubmitResult.ok]
    · simp [firstFailure, fieldChecks, h1, hmob, h3f, hphoto, h5] at hpass

/-- Witness for the amended transition theorem: `inpFreshMobile` is valid
and its mobile `8123456789` is absent from `db0`. -/
theorem valid_tuple_transition_and_single_write_witness :
    firstFailure (fieldChecks inpFreshMobile) = none ∧
    normalize_mobile inpFreshMobile.mobile_raw = some "8123456789" ∧
    (∀ p ∈ db0.docs, p.2.mobile ≠ "8123456789") ∧
    ((page_create_submit sess0 (some db0) inpFreshMobile 7 "7981856940").1.page
      = "result" ∧
     (page_create_submit sess0 (some db0) inpFreshMobile 7 "7981856940").2.2.2
      = 1 ∧
     SubmitResult.ok
       (page_create_submit sess0 (some db0) inpFreshMobile 7
         "7981856940").2.2.1 = true) :=
  ⟨by decide, by decide, by decide,
   valid_tuple_transition_and_single_write sess0 db0 inpFreshMobile 7
     "7981856940" "8123456789" (by decide) (by decide)
     (Or.inr (by decide))⟩

/-- The `(A4_WIDTH_PX - w) // 2` abscissa really centres a width-`w`
element: the left margin is at most the right margin and they differ by
at most one pixel. -/
theorem centeredOn_centeredX (w : Nat) : centeredOn (centeredX w) w := by
  unfold centeredOn centeredX A4_WIDTH_PX
  rw [Int.fdiv_eq_ediv _ (by norm_num)]
  constructor <;> omega

/-- C9: the card compositor draws the title centred via its measured
width, the three info lines left-aligned at accumulating fixed offsets,
each photo resized to the fixed target width with truncated
aspect-preserving height and pasted horizontally centred, and each
caption directly below its image, horizontally centred. -/
theorem card_compositor_layout (tl : Font → String → Nat)
    (name school goal : String) (cap ai : ImgDims)
    (hcw : 0 < cap.w) (haw : 0 < ai.w) :
    CardLayoutSpec tl name school goal cap ai
      (generate_printable_card tl name school goal cap ai) := by
  have hcap1 : resizedHeight cap * cap.w ≤ cap.h * 1600 :=
    Nat.div_mul_le_self _ _
  have hcap2 : cap.h * 1600 < (resizedHeight cap + 1) * cap.w :=
    (Nat.div_lt_iff_lt_mul hcw).mp (Nat.lt_succ_self _)
  have hai1 : resizedHeight ai * ai.w ≤ ai.h * 1600 :=
    Nat.div_mul_le_self _ _
  have hai2 : ai.h * 1600 < (resizedHeight ai + 1) * ai.w :=
    (Nat.div_lt_iff_lt_mul haw).mp (Nat.lt_succ_self _)
  exact ⟨⟨rfl, centeredOn_centeredX _⟩,
    ⟨rfl, rfl, rfl⟩,
    ⟨rfl, hcap1, hcap2, by norm_num [centeredOn, A4_WIDTH_PX], rfl,
      centeredOn_centeredX _⟩,
    ⟨rfl, hai1, hai2, by norm_num [centeredOn, A4_WIDTH_PX], rfl,
      centeredOn_centeredX _⟩⟩

/-- Witness for the compositor-layout theorem at concrete image sizes and
the ten-pixels-per-character metric oracle. -/
theorem card_compositor_layout_witness :
    0 < (ImgDims.mk 800 600).w ∧ 0 < (ImgDims.mk 1024 1024).w ∧
    CardLayoutSpec tlFixture "N" "S" "Doctor" ⟨800, 600⟩ ⟨1024, 1024⟩
      (generate_printable_card tlFixture "N" "S" "Doctor" ⟨800, 600⟩
        ⟨1024, 1024⟩) :=
  ⟨by decide, by decide,
   card_compositor_layout tlFixture "N" "S" "Doctor" ⟨800, 600⟩ ⟨1024, 1024⟩
     (by decide) (by decide)⟩

/-- A successful `MOBILE_RE` match returns a 10-digit 6-9-headed core,
and the input is that core preceded by one of the allowed prefixes. -/
theorem mobileRegexMatch_some (l r : List Char)
    (h : mobileRegexMatch l = some r) :
    coreMatch r = true ∧ ∃ p, prefixOk p ∧ l = p ++ r := by
  unfold mobileRegexMatch at h
  rcases l with _ | ⟨c1, rest1⟩
  · simp at h
  by_cases h1 : c1 = '+'
  · subst h1
    rcases rest1 with _ | ⟨c2, _ | ⟨c3, rest⟩⟩
    · simp only [if_pos rfl] at h
      by_cases hc : coreMatch ['+'] = true
      · simp [hc] at h
        subst h
        exact ⟨hc, [], Or.inl rfl, rfl⟩
      · simp [hc] at h
    · simp only [if_pos rfl] at h
      by_cases hc : coreMatch ['+', c2] = true
      · simp [hc] at h
        subst h
        exact ⟨hc, [], Or.inl rfl, rfl⟩
      · simp [hc] at h
    · simp only [if_pos rfl] at h
      by_cases h91 : c2 = '9' ∧ c3 = '1'
      · obtain ⟨h9, h11⟩ := h91
        subst h9; subst h11
        have htr : ('9' : Char) = '9' ∧ ('1' : Char) = '1' := ⟨rfl, rfl⟩
        simp only [if_pos htr] at h
        rcases rest with _ | ⟨c, rest2⟩
        · simp at h
        · by_cases hsc : sepChar c = true ∧ coreMatch rest2 = true
          · simp only [if_pos hsc] at h
            obtain rfl := Option.some.inj h
            exact ⟨hsc.2, ['+', '9', '1', c],
              Or.inr (Or.inr (Or.inr ⟨c, hsc.1, rfl⟩)), rfl⟩
          · simp only [if_neg hsc] at h
            by_cases hc : coreMatch (c :: rest2) = true
            · simp [hc] at h
              subst h
              exact ⟨hc, ['+', '9', '1'], Or.inr (Or.inr (Or.inl rfl)), rfl⟩
            · simp [hc] at h
      · simp only [if_neg h91] at h
        by_cases hc : coreMatch ('+' :: c2 :: c3 :: rest) = true
        · simp [hc] at h
          subst h
          exact ⟨hc, [], Or.inl rfl, rfl⟩
        · simp [hc] at h
  · by_cases h0 : c1 = '0'
    · subst h0
      simp [h1] at h
      by_cases hc : coreMatch rest1 = true
      · simp [hc] at h
        subst h
        exact ⟨hc, ['0'], Or.inr (Or.inl rfl), rfl⟩
      · by_cases hc2 : coreMatch ('0' :: rest1) = true
        · simp [hc, hc2] at h
          subst h
          exact ⟨hc2, [], Or.inl rfl, rfl⟩
        · simp [hc, hc2] at h
    · simp [h1, h0] at h
      by_cases hc : coreMatch (c1 :: rest1) = true
      · simp [hc] at h
        subst h
        exact ⟨hc, [], Or.inl rfl, rfl⟩
      · simp [hc] at h

/-- A mobile accepted by `normalize_mobile` is the trailing 10-digit
core of the stripped input, with any allowed prefix removed. -/
theorem normalize_mobile_some (raw s : String)
    (h : normalize_mobile raw = some s) :
    coreMatch s.data = true ∧
      ∃ p, prefixOk p ∧ stripChars raw.data = p ++ s.data := by
  unfold normalize_mobile at h
  by_cases hr : raw = ""
  · simp [hr] at h
  · simp only [hr, if_false] at h
    obtain ⟨r, hm, hs⟩ := Option.map_eq_some'.mp h
    obtain ⟨hc, p, hp, hl⟩ := mobileRegexMatch_some _ _ hm
    subst hs
    exact ⟨hc, p, hp, hl⟩

/-- Every entry of a `replaceByMobile` result is either an original
entry or carries the replacement document. -/
theorem replaceByMobile_mem (l : List (Nat × Doc)) (m : String) (nd : Doc)
    (l2 : List (Nat × Doc)) (i : Nat)
    (h : replaceByMobile l m nd = some (l2, i)) :
    ∀ q ∈ l2, q ∈ l ∨ q.2 = nd := by
  induction l generalizing l2 i with
  | nil => simp [replaceByMobile] at h
  | cons hd tl ih =>
      obtain ⟨j, e⟩ := hd
      by_cases he : e.mobile = m
      · simp [replaceByMobile, he] at h
        obtain ⟨h1, h2⟩ := h
        subst h1
        intro q hq
        rcases List.mem_cons.mp hq with hq | hq
        · exact Or.inr (by rw [hq])
        · exact Or.inl (List.mem_cons_of_mem _ hq)
      · simp [replaceByMobile, he] at h
        obtain ⟨l3, hrep, heq⟩ := h
        subst heq
        intro q hq
        rcases List.mem_cons.mp hq with hq | hq
        · exact Or.inl (by rw [hq]; exact List.mem_cons_self _ _)
        · rcases ih l3 i hrep q hq with h' | h'
          · exact Or.inl (List.mem_cons_of_mem _ h')
          · exact Or.inr h'

/-- The upsert preserves the all-mobiles-normalized store invariant
when the upserted document carries a normalized mobile. -/
theorem findOneAndUpdateUpsert_validStore (db : MongoDB) (m : String) (d : Doc)
    (hdm : d.mobile = m) (hm : coreMatch m.data = true) (hv : validStore db) :
    validStore (findOneAndUpdateUpsert db m d).1 := by
  unfold findOneAndUpdateUpsert
  cases hrep : replaceByMobile db.docs m d with
  | none =>
      intro q hq
      rcases List.mem_append.mp hq with hq | hq
      · exact hv q hq
      · obtain rfl := List.mem_singleton.mp hq
        simpa [hdm] using hm
  | some pr =>
      obtain ⟨l2, i⟩ := pr
      intro q hq
      rcases replaceByMobile_mem db.docs m d l2 i hrep q hq with hq2 | hq2
      · exact hv q hq2
      · rw [hq2, hdm]
        exact hm

/-- `insert_one` preserves the all-mobiles-normalized store invariant
when the inserted document carries a normalized mobile. -/
theorem insertOne_validStore (db : MongoDB) (d : Doc)
    (hm : coreMatch d.mobile.data = true) (hv : validStore db) :
    validStore (insertOne db d).1 := by
  unfold insertOne
  by_cases hany : db.docs.any (fun p => p.2.mobile = d.mobile) = true
  · simp only [hany, if_pos]
    exact hv
  · simp only [Bool.not_eq_true] at hany
    simp only [hany, Bool.false_eq_true, if_false]
    intro q hq
    rcases List.mem_append.mp hq with hq | hq
    · exact hv q hq
    · obtain rfl := List.mem_singleton.mp hq
      simpa using hm

/-- `save_to_mongo` preserves the all-mobiles-normalized store
invariant when called with a normalized mobile. -/
theorem save_to_mongo_validStore (db : MongoDB) (n m d : String) (t : Nat)
    (admin : String) (hm : coreMatch m.data = true) (hv : validStore db) :
    validStoreOpt (save_to_mongo (some db) n m d t admin).1 := by
  unfold save_to_mongo
  by_cases hcond : admin ≠ "" ∧ m = admin
  · simp only [hcond.1, hcond.2, validStoreOpt]
    simp [hcond.1]
    exact findOneAndUpdateUpsert_validStore db admin
      { name := n, mobile := admin, dream := d, timestamp := t,
        drive_url := none, drive_file_id := none } rfl (hcond.2 ▸ hm) hv
  · have hcf : ((admin ≠ "" && m = admin) : Bool) = false := by
      rcases not_and_or.mp hcond with hx | hx <;> simp [hx]
    simp only [hcf, Bool.false_eq_true, if_false]
    exact insertOne_validStore db
      { name := n, mobile := m, dream := d, timestamp := t,
        drive_url := none, drive_file_id := none } hm hv

/-- When every field validation passes, the submitted session stores
the normalized mobile in its form data and the store is whatever the
single `save_to_mongo` call produced. -/
theorem page_submit_shape (sess : Session) (coll : Option MongoDB)
    (inp : CreateInput) (now : Nat) (admin : String) (mob : String)
    (h1 : ¬ pyStrip inp.name = "")
    (hmob : normalize_mobile inp.mobile_raw = some mob)
    (h3f : ((inp.dream = "Other" && pyStrip inp.other = "") : Bool) = false)
    (pb : List Nat) (hphoto : inp.photo = some pb) (h5 : inp.consent = true) :
    (page_create_submit sess coll inp now admin).1.form_data.mobile
      = some mob ∧
    (page_create_submit sess coll inp now admin).2.1
      = (save_to_mongo coll (pyStrip inp.name) mob
          (if inp.dream = "Other" then pyStrip inp.other else inp.dream)
          now admin).1 := by
  simp only [page_create_submit, h1, hmob, h3f, hphoto, h5, Bool.false_eq_true,
    if_false, Bool.not_true, ite_false]
  rcases hs : save_to_mongo coll (pyStrip inp.name) mob
      (if inp.dream = "Other" then pyStrip inp.other else inp.dream) now admin
    with ⟨coll2, res⟩
  cases res <;> simp [hs]

/-- C10: an accepted contact is normalized to the trailing 10-digit
6-9-headed core of the stripped input (country-code or leading-zero
prefix removed); this normalized value is what the session form data
holds whenever a record-store write is attempted, and submissions keep
every persisted contact a bare 10-digit core beginning 6-9. -/
theorem normalized_contact_persisted (raw s10 : String)
    (hnorm : normalize_mobile raw = some s10)
    (sess : Session) (db : MongoDB) (inp : CreateInput) (now : Nat)
    (admin : String) (hraw : inp.mobile_raw = raw)
    (hvalid : validStore db) :
    (coreMatch s10.data = true ∧
      ∃ p, prefixOk p ∧ stripChars raw.data = p ++ s10.data) ∧
    ((page_create_submit sess (some db) inp now admin).2.2.2 ≠ 0 →
      (page_create_submit sess (some db) inp now admin).1.form_data.mobile
        = some s10) ∧
    validStoreOpt (page_create_submit sess (some db) inp now admin).2.1 := by
  obtain ⟨hc10, hdecomp⟩ := normalize_mobile_some raw s10 hnorm
  have hmobinp : normalize_mobile inp.mobile_raw = some s10 := by
    rw [hraw]; exact hnorm
  refine ⟨⟨hc10, hdecomp⟩, ?_⟩
  by_cases h1 : pyStrip inp.name = ""
  · constructor
    · simp [page_create_submit, h1]
    · simpa [page_create_submit, h1, validStoreOpt] using hvalid
  by_cases h3 : inp.dream = "Other" ∧ pyStrip inp.other = ""
  · constructor
    · simp [page_create_submit, h1, hmobinp, h3.1, h3.2]
    · simpa [page_create_submit, h1, hmobinp, h3.1, h3.2, validStoreOpt]
        using hvalid
  have h3f : ((inp.dream = "Other" && pyStrip inp.other = "") : Bool)
      = false := by
    rcases not_and_or.mp h3 with h | h <;> simp [h]
  cases hphoto : inp.photo with
  | none =>
      constructor
      · simp [page_create_submit, h1, hmobinp, h3f, hphoto]
      · simpa [page_create_submit, h1, hmobinp, h3f, hphoto, validStoreOpt]
          using hvalid
  | some pb =>
      by_cases h5 : inp.consent = true
      · constructor
        · intro _
          exact (page_submit_shape sess (some db) inp now admin s10 h1 hmobinp
            h3f pb hphoto h5).1
        · rw [(page_submit_shape sess (some db) inp now admin s10 h1 hmobinp
            h3f pb hphoto h5).2]
          exact save_to_mongo_validStore db (pyStrip inp.name) s10
            (if inp.dream = "Other" then pyStrip inp.other else inp.dream)
            now admin hc10 hvalid
      · constructor
        · simp [page_create_submit, h1, hmobinp, h3f, hphoto, h5]
        · simpa [page_create_submit, h1, hmobinp, h3f, hphoto, h5,
            validStoreOpt] using hvalid

/-- Witness for the normalization/persistence theorem at the prefixed raw
mobile `+91-9876543210` submitted over the store `db0`. -/
theorem normalized_contact_persisted_witness :
    normalize_mobile "+91-9876543210" = some "9876543210" ∧
    inpPrefixedMobile.mobile_raw = "+91-9876543210" ∧
    (∀ p ∈ db0.docs, coreMatch p.2.mobile.data = true) ∧
    ((coreMatch ("9876543210" : String).data = true ∧
      ∃ p, prefixOk p ∧ stripChars ("+91-9876543210" : String).data
        = p ++ ("9876543210" : String).data) ∧
     ((page_create_submit sess0 (some db0) inpPrefixedMobile 3
          "7981856940").2.2.2 ≠ 0 →
       (page_create_submit sess0 (some db0) inpPrefixedMobile 3
          "7981856940").1.form_data.mobile = some "9876543210") ∧
     validStoreOpt (page_create_submit sess0 (some db0) inpPrefixedMobile 3
        "7981856940").2.1) :=
  ⟨by decide, rfl, by decide,
   normalized_contact_persisted "+91-9876543210" "9876543210" (by decide)
     sess0 db0 inpPrefixedMobile 3 "7981856940" rfl (by unfold validStore; decide)⟩
